import Mathlib

/-!
# Verification of `nanodesign/converters/converter.py`

A shallow embedding of the converter orchestration module of the
nanodesign DNA-design conversion tool, together with proofs about it.

The only source file of the repository is `converter.py`; the data
structures and operations it dispatches to (`DnaStructure`,
`CadnanoConvertDesign`, the `dna_sequence_data` library, the cadnano
reader) live outside the provided sources.  Definitions for those are
therefore modelled from the specification and are marked as such in
their doc comments.  Everything translated directly from `converter.py`
follows the Python source line by line.

Python's `re` module treats `\W` as the complement of word characters;
for the ASCII inputs this tool receives this is exactly
`[^A-Za-z0-9_]`, which is how it is modelled here (Unicode word
characters beyond ASCII are not modelled).
-/

namespace Nanodesign

/-- A character counts as a word character for the `\W` regex used in
`perform_staple_operations` (ASCII reading of Python's `\w`). -/
def isWordChar (c : Char) : Bool :=
  c.isAlpha || c.isDigit || c = '_'

/-- Auxiliary for Python's `s.split(sep, 1)`: split a character list at
the first occurrence of `sep`, returning the part before it and, when
`sep` occurs, the part after it. -/
def splitFirstAux (sep : Char) : List Char → List Char × Option (List Char)
  | [] => ([], none)
  | c :: cs =>
    if c = sep then ([], some cs)
    else
      let r := splitFirstAux sep cs
      (c :: r.1, r.2)

/-- Python `s.split(sep, 1)`: at most one split, at the first `sep`. -/
def pySplitFirst (sep : Char) (s : String) : List String :=
  match splitFirstAux sep s.toList with
  | (a, none) => [String.mk a]
  | (a, some b) => [String.mk a, String.mk b]

/-- Auxiliary for `re.split('\W', s)`: split a character list at every
non-word character, keeping empty segments (Python keeps them too). -/
def splitNonWordAux : List Char → List (List Char)
  | [] => [[]]
  | c :: rest =>
    match splitNonWordAux rest with
    | [] => [[]]
    | t :: ts => if isWordChar c then (c :: t) :: ts else [] :: t :: ts

/-- Python `re.compile('\W').split(s)` (ASCII word characters). -/
def pySplitNonWord (s : String) : List String :=
  (splitNonWordAux s.toList).map String.mk

/-- Split a character list at every occurrence of `sep` (used for the
underscore grouping rule of Python integer literals). -/
def splitCharAux (sep : Char) : List Char → List (List Char)
  | [] => [[]]
  | c :: rest =>
    match splitCharAux sep rest with
    | [] => [[]]
    | t :: ts => if c = sep then [] :: t :: ts else (c :: t) :: ts

/-- Python `int(s)` restricted to strings of word characters (the only
strings `\W`-splitting can produce): valid when the string is one or
more digit groups separated by single underscores.  Returns `none` when
Python would raise `ValueError`. -/
def pyIntParse (s : String) : Option Nat :=
  let groups := splitCharAux '_' s.toList
  if groups.all (fun g => !g.isEmpty && g.all Char.isDigit) then
    some ((s.toList.filter Char.isDigit).foldl (fun n c => 10 * n + (c.toNat - 48)) 0)
  else
    none

/-- Parse every string of a list with `pyIntParse`, failing when any
element fails (the list comprehension `[int(color) for color in ...]`
raises on the first invalid element; which element fails is not
observable here). -/
def pyIntParseAll : List String → Option (List Nat)
  | [] => some []
  | x :: xs =>
    match pyIntParse x, pyIntParseAll xs with
    | some n, some ns => some (n :: ns)
    | _, _ => none

/-- Index of the last occurrence of `c` in `l`, if any. -/
def lastIdxOf (c : Char) (l : List Char) : Option Nat :=
  (l.enum.filter (fun p => p.2 = c)).getLast?.map (·.1)

/-- Python `os.path.splitext` (posix rules): the extension starts at the
last dot, provided some non-dot character precedes it within the final
path component. -/
def splitext (p : String) : String × String :=
  let l := p.toList
  match lastIdxOf '.' l with
  | none => (p, "")
  | some d =>
    let start := match lastIdxOf '/' l with
      | none => 0
      | some s => s + 1
    if start ≤ d && ((l.drop start).take (d - start)).any (fun c => c ≠ '.') then
      (String.mk (l.take d), String.mk (l.drop d))
    else
      (p, "")

/-!
## The structure model

`DnaStructure` and its operations are not part of the provided sources;
they are modelled from the specification (§3, §4.3). A strand carries
its id, role and color; a base carries its assigned nucleotide letter
and an optional reference (strand index, base index) to its paired base
on the complementary strand.
-/

/-- Modelled from the spec: the expanded unit of nucleotide identity
(§3 Base): an optional assigned letter and an optional reference to the
paired base on the partner strand, as (strand index, base index). -/
structure DnaBase where
  letter : Option Char
  across : Option (Nat × Nat)
  deriving DecidableEq

/-- Modelled from the spec: a strand of the structure model (§3 Strand):
id, role (scaffold or staple) and the color grouping tag. -/
structure DnaStrand where
  id : Nat
  is_scaffold : Bool
  color : Nat
  bases : List DnaBase
  deriving DecidableEq

/-- Modelled from the spec: the structure model (§3): the collection of
strands (helix geometry is not needed by any claim and is omitted). -/
structure DnaStructure where
  strands : List DnaStrand
  deriving DecidableEq

/-- The staple strands of a structure, in strand-list order. -/
def DnaStructure.stapleStrands (s : DnaStructure) : List DnaStrand :=
  s.strands.filter (fun st => !st.is_scaffold)

/-- The scaffold strands of a structure, in strand-list order. -/
def DnaStructure.scaffoldStrands (s : DnaStructure) : List DnaStrand :=
  s.strands.filter (fun st => st.is_scaffold)

/-- Modelled from the spec: `get_staples_by_color` (§4.3
`staples_by_color`): every staple strand whose color tag is a member of
the given colors. -/
def DnaStructure.get_staples_by_color (s : DnaStructure) (colors : List Nat) :
    List DnaStrand :=
  s.strands.filter (fun st => !st.is_scaffold && decide (st.color ∈ colors))

/-- Modelled from the spec: `remove_staples` (§4.3): delete every staple
strand not in `retain`; scaffold strands are never removed. -/
def DnaStructure.remove_staples (s : DnaStructure) (retain : List DnaStrand) :
    DnaStructure :=
  { strands := s.strands.filter (fun st => st.is_scaffold || decide (st ∈ retain)) }

/-!
## Staple operations (`Converter.perform_staple_operations`)

The Python method parses `staples_arg` and dispatches one call on
`self.dna_structure`.  The embedding returns which call is dispatched
(the call semantics of `remove_staples` is modelled above;
`generate_maximal_staple_set` is only ever dispatched, never applied,
by the orchestration code, so only the dispatch is recorded).  Python
exceptions escaping the method are modelled with `Except`.
-/

/-- The Python exceptions `perform_staple_operations` can raise:
`NameError` (reading the unassigned local `retain_colors`) and
`ValueError` (from `int(...)`). -/
inductive PyError where
  | nameError
  | valueError
  deriving DecidableEq

/-- The staple-mutation call dispatched by `perform_staple_operations`:
none, `remove_staples(retain)`, or `generate_maximal_staple_set(retain)`. -/
inductive StapleCall where
  | noOp
  | removeStaples (retain : List DnaStrand)
  | generateMaximalStapleSet (retain : List DnaStrand)
  deriving DecidableEq

/-- Lines 172–182 of `converter.py`: split the retain clause on `\W`,
require the leading token `retain` (otherwise the local `retain_colors`
is never assigned and line 180 raises `NameError`), and convert the
remaining non-empty tokens with `int` (raising `ValueError` on
non-numeric tokens). -/
def parseRetainColors (clause : String) : Except PyError (List Nat) :=
  let retain_tokens := pySplitNonWord clause
  if retain_tokens.headD "" = "retain" then
    match pyIntParseAll ((retain_tokens.drop 1).filter (fun c => c ≠ "")) with
    | some retain_colors => Except.ok retain_colors
    | none => Except.error PyError.valueError
  else
    Except.error PyError.nameError

/-- Lines 184–191 of `converter.py`: dispatch on the operation token. -/
def stapleDispatch (operation : String) (retain_staples : List DnaStrand) :
    StapleCall :=
  if operation = "delete" then StapleCall.removeStaples retain_staples
  else if operation = "maximal_set" then
    StapleCall.generateMaximalStapleSet retain_staples
  else StapleCall.noOp

/-- Translation of `Converter.perform_staple_operations` (lines 160–191): split
`staples_arg` at the first comma; when a second token exists, parse the
retain colors and look the retained staples up by color; finally
dispatch on the operation name.  The first argument is the converter's
`dna_structure`. -/
def perform_staple_operations (dna_structure : DnaStructure)
    (staples_arg : String) : Except PyError StapleCall :=
  let tokens := pySplitFirst ',' staples_arg
  let operation := tokens.headD ""
  if tokens.length = 2 then
    match parseRetainColors (tokens.getD 1 "") with
    | Except.ok retain_colors =>
      Except.ok
        (stapleDispatch operation (dna_structure.get_staples_by_color retain_colors))
    | Except.error e => Except.error e
  else
    Except.ok (stapleDispatch operation [])

/-!
## Structure building (`create_structure`)

`CadnanoConvertDesign.create_structure` is not under the provided
sources; its base-expansion behaviour is modelled from the
specification (§4.1, §8).
-/

/-- Modelled from the spec: one lattice position of a design track
(§3 BaseSlot), reduced to the insertion/deletion data the base-expansion
rules depend on. -/
structure BaseSlot where
  deleted : Bool
  insertion : Nat
  deriving DecidableEq

/-- Modelled from the spec: how many `Base` instances one slot
contributes (§4.1): deleted slots are skipped in both modes; with
`modify` an inserted slot contributes `1 + count` bases, without it
exactly one. -/
def slotBaseCount (modify : Bool) (s : BaseSlot) : Nat :=
  if s.deleted then 0
  else if modify then 1 + s.insertion
  else 1

/-- Modelled from the spec: the strand-shaped part of a parsed design
record feeding the structure builder: the strand id, role and color a
built strand will carry, and the ordered base slots of its track. -/
structure StrandTrack where
  id : Nat
  is_scaffold : Bool
  color : Nat
  slots : List BaseSlot
  deriving DecidableEq

/-- Modelled from the spec: the design record produced by the external
cadnano reader (§6 Input), reduced to its strand tracks. -/
structure CadnanoDesign where
  tracks : List StrandTrack
  deriving DecidableEq

/-- Modelled from the spec: `CadnanoConvertDesign.create_structure`
(§4.1 Structure Builder): expand each track's slots per the
insertion/deletion rules of `slotBaseCount`.  Geometry and pairing
pointers are outside every claim and are left unset. -/
def create_structure (design : CadnanoDesign) (modify : Bool) : DnaStructure :=
  { strands := design.tracks.map (fun t =>
      { id := t.id
        is_scaffold := t.is_scaffold
        color := t.color
        bases := (t.slots.map (fun sl =>
          List.replicate (slotBaseCount modify sl) ⟨none, none⟩)).flatten }) }

/-!
## Sequence assignment by name (`set_sequence_from_name`)

`CadnanoConvertDesign.set_sequence_from_name` and the
`dna_sequence_data` module are not under the provided sources; they are
modelled from the specification (§4.2): the name resolves through a
fixed library of named reference sequences, failing with
`UnknownSequenceName` when absent — in which case the model is left in
its pre-call state — and otherwise the sequence letters are written
onto the scaffold strands in order, propagating Watson–Crick
complements to paired bases.  The library is represented as an
association list parameter.
-/

/-- The error taxonomy of sequence assignment (§7): an unknown sequence
name is fatal to that assignment call only. -/
inductive SeqError where
  | unknownSequenceName
  deriving DecidableEq

/-- Watson–Crick complement of a nucleotide letter (§4.2): A↔T, C↔G. -/
def wcComplement (c : Char) : Option Char :=
  if c = 'A' then some 'T'
  else if c = 'T' then some 'A'
  else if c = 'C' then some 'G'
  else if c = 'G' then some 'C'
  else none

/-- Write `letter` into base `baseIdx` of strand `strandIdx` (used for
complement propagation). -/
def DnaStructure.setBaseLetter (s : DnaStructure) (strandIdx baseIdx : Nat)
    (letter : Char) : DnaStructure :=
  { strands := s.strands.mapIdx (fun i st =>
      if i = strandIdx then
        { st with bases := st.bases.mapIdx (fun j b =>
            if j = baseIdx then { b with letter := some letter } else b) }
      else st) }

/-- Assign the sequence letters positionally to every scaffold strand's
bases; a base beyond the sequence's length keeps its previous letter
(§4.2: letters not covered by source data stay unassigned). -/
def assignScaffoldLetters (seq : List Char) (s : DnaStructure) : DnaStructure :=
  { strands := s.strands.map (fun st =>
      if st.is_scaffold then
        { st with bases := st.bases.mapIdx (fun j b =>
            match seq.get? j with
            | none => b
            | some c => { b with letter := some c }) }
      else st) }

/-- The complement updates induced by the scaffold letters: for every
scaffold base with an assigned letter and a paired base, the partner
receives the Watson–Crick complement. -/
def complementUpdates (s : DnaStructure) : List (Nat × Nat × Char) :=
  (s.strands.map (fun st =>
    if st.is_scaffold then
      (st.bases.map (fun b =>
        match b.letter, b.across with
        | some c, some target =>
          match wcComplement c with
          | some c2 => [(target.1, target.2, c2)]
          | none => []
        | _, _ => [])).flatten
    else [])).flatten

/-- Modelled from the spec: `set_sequence_from_name` (§4.2
`assign_from_name`): resolve `seq_name` through the library, failing
with `UnknownSequenceName` when absent (model unchanged), otherwise
write the sequence onto the scaffold strands and propagate complements.
The `modified_structure` flag selects the modification-aware base
sequence; the caller contract (§4.2) makes a mismatched flag undefined
behaviour, so the flag does not further alter this model. -/
def set_sequence_from_name (lib : List (String × List Char))
    (s : DnaStructure) (modified_structure : Bool) (seq_name : String) :
    Except SeqError DnaStructure :=
  match lib.lookup seq_name with
  | none => Except.error SeqError.unknownSequenceName
  | some seq =>
    let s1 := assignScaffoldLetters seq s
    Except.ok ((complementUpdates s1).foldl
      (fun acc u => acc.setBaseLetter u.1 u.2.1 u.2.2) s1)

/-!
## The converter and `read_cadnano_file`

Translated from `converter.py` lines 75–126.  The external collaborator
calls the method makes are recorded as a trace of events;
`CadnanoReader.read_json` and `read_csv` are external (§6), so the
design record and the CSV table stand in for their return values, and
`set_sequence` (the CSV-table assigner, external to the sources and
unused by every claim's conclusion) is a function parameter.
-/

/-- The calls `read_cadnano_file` makes on its collaborators, in
program order, with the arguments the claims are about. -/
inductive CadnanoEvent where
  | readJson
  | createStructure (modify : Bool)
  | readCsv (file : String)
  | setSequence (modified_structure : Bool)
  | logErrorUnknownName (seq_name : String)
  | setSequenceFromName (modified_structure : Bool) (seq_name : String)
  deriving DecidableEq

/-- Whether an event is a sequence-assignment call. -/
def CadnanoEvent.isAssignment : CadnanoEvent → Bool
  | CadnanoEvent.setSequence _ => true
  | CadnanoEvent.setSequenceFromName _ _ => true
  | _ => false

/-- The converter state (`Converter.__init__`, lines 75–87): the fields
the claims depend on; the reader/design/structure fields start as
`None`. -/
structure Converter where
  modify : Bool
  dna_structure : Option DnaStructure
  deriving DecidableEq

/-- Constructor `Converter.__init__(modify, logg)`: `logg` only toggles logging and
does not enter the model state. -/
def Converter.init (modify : Bool) : Converter :=
  { modify := modify, dna_structure := none }

/-- A converter constructed with the default arguments
(`Converter()` — `modify=False`). -/
def Converter.initDefault : Converter :=
  Converter.init false

/-- The table an external CSV reader returns: letters keyed by
(helix id, position). -/
def CsvTable : Type :=
  List ((Nat × Nat) × Char)

/-- Translation of `Converter.read_cadnano_file` (lines 89–126): read the design
(external reader, its result is the `design` argument), build the
structure with the converter's `modify` mode, then optionally assign a
sequence from a `.csv` file (with `modified_structure = False`) and
optionally assign a sequence by name (logging an error when the name is
unknown, then calling the assigner anyway, again with
`modified_structure = False`).  Returns the trace of collaborator calls
and the resulting structure, or the error the name assignment raised. -/
def Converter.read_cadnano_file (c : Converter)
    (lib : List (String × List Char)) (design : CadnanoDesign)
    (set_sequence_impl : DnaStructure → Bool → CsvTable → DnaStructure)
    (csv_data : CsvTable) (seq_file_name seq_name : String) :
    List CadnanoEvent × Except SeqError DnaStructure :=
  let dna_structure := create_structure design c.modify
  let csvBranch : List CadnanoEvent × DnaStructure :=
    if seq_file_name = "" then ([], dna_structure)
    else if (splitext seq_file_name).2 = ".csv" then
      ([CadnanoEvent.readCsv seq_file_name, CadnanoEvent.setSequence false],
       set_sequence_impl dna_structure false csv_data)
    else ([], dna_structure)
  let nameBranch : List CadnanoEvent × Except SeqError DnaStructure :=
    if seq_name = "" then ([], Except.ok csvBranch.2)
    else
      ((if (lib.lookup seq_name).isNone then
          [CadnanoEvent.logErrorUnknownName seq_name]
        else []) ++ [CadnanoEvent.setSequenceFromName false seq_name],
       set_sequence_from_name lib csvBranch.2 false seq_name)
  (CadnanoEvent.readJson :: CadnanoEvent.createStructure c.modify ::
    (csvBranch.1 ++ nameBranch.1),
   nameBranch.2)

/-!
## Lemmas about the staple operations
-/

theorem get_staples_by_color_nil (s : DnaStructure) :
    s.get_staples_by_color [] = [] := by
  simp [DnaStructure.get_staples_by_color]

theorem stapleDispatch_delete (r : List DnaStrand) :
    stapleDispatch "delete" r = StapleCall.removeStaples r := rfl

theorem stapleDispatch_maximal (r : List DnaStrand) :
    stapleDispatch "maximal_set" r = StapleCall.generateMaximalStapleSet r :=
  rfl

theorem remove_staples_stapleStrands (s : DnaStructure)
    (retain : List DnaStrand) :
    (s.remove_staples retain).stapleStrands =
      s.stapleStrands.filter (fun st => decide (st ∈ retain)) := by
  simp only [DnaStructure.remove_staples, DnaStructure.stapleStrands,
    List.filter_filter]
  apply List.filter_congr
  intro st _
  cases hsc : st.is_scaffold <;> simp [hsc]

theorem remove_staples_scaffoldStrands (s : DnaStructure)
    (retain : List DnaStrand) :
    (s.remove_staples retain).scaffoldStrands = s.scaffoldStrands := by
  simp only [DnaStructure.remove_staples, DnaStructure.scaffoldStrands,
    List.filter_filter]
  apply List.filter_congr
  intro st _
  cases hsc : st.is_scaffold <;> simp [hsc]

/-- Example strands used as concrete inputs for the witnesses. -/
def sampleScaffold : DnaStrand :=
  { id := 0, is_scaffold := true, color := 0, bases := [] }

def sampleStaple5 : DnaStrand :=
  { id := 1, is_scaffold := false, color := 5, bases := [] }

def sampleStaple7 : DnaStrand :=
  { id := 2, is_scaffold := false, color := 7, bases := [] }

def sampleStructure : DnaStructure :=
  { strands := [sampleScaffold, sampleStaple5, sampleStaple7] }

/-- C3: For every `staples_arg` whose first comma-separated token is
`delete`, a successful `perform_staple_operations` run dispatches
`remove_staples` with the retain set obtained from
`get_staples_by_color` over the parsed retain colors, and afterwards
the model's staple strand set equals the retain set intersected with
the original staple set while no scaffold strand is removed. -/
theorem claim_C3_delete_removes_nonretained (s : DnaStructure) (arg : String)
    (call : StapleCall)
    (hop : (pySplitFirst ',' arg).headD "" = "delete")
    (hok : perform_staple_operations s arg = Except.ok call) :
    ∃ colors,
      call = StapleCall.removeStaples (s.get_staples_by_color colors) ∧
      ((pySplitFirst ',' arg).length = 2 →
        parseRetainColors ((pySplitFirst ',' arg).getD 1 "") =
          Except.ok colors) ∧
      (s.remove_staples (s.get_staples_by_color colors)).stapleStrands =
        s.stapleStrands.filter
          (fun st => decide (st ∈ s.get_staples_by_color colors)) ∧
      (s.remove_staples (s.get_staples_by_color colors)).scaffoldStrands =
        s.scaffoldStrands := by
  simp only [perform_staple_operations] at hok
  split at hok
  case isTrue hl =>
    split at hok
    case h_1 colors hp =>
      refine ⟨colors, ?_, fun _ => hp, remove_staples_stapleStrands s _,
        remove_staples_scaffoldStrands s _⟩
      rw [hop, stapleDispatch_delete] at hok
      exact (Except.ok.inj hok).symm
    case h_2 e hp =>
      exact absurd hok (by simp)
  case isFalse hl =>
    refine ⟨[], ?_, fun h => absurd h hl, remove_staples_stapleStrands s _,
      remove_staples_scaffoldStrands s _⟩
    rw [hop, stapleDispatch_delete] at hok
    rw [get_staples_by_color_nil]
    exact (Except.ok.inj hok).symm

theorem claim_C3_witness :
    ∃ colors,
      StapleCall.removeStaples [sampleStaple5] =
        StapleCall.removeStaples (sampleStructure.get_staples_by_color colors) ∧
      ((pySplitFirst ',' "delete,retain 5").length = 2 →
        parseRetainColors ((pySplitFirst ',' "delete,retain 5").getD 1 "") =
          Except.ok colors) ∧
      (sampleStructure.remove_staples
          (sampleStructure.get_staples_by_color colors)).stapleStrands =
        sampleStructure.stapleStrands.filter
          (fun st =>
            decide (st ∈ sampleStructure.get_staples_by_color colors)) ∧
      (sampleStructure.remove_staples
          (sampleStructure.get_staples_by_color colors)).scaffoldStrands =
        sampleStructure.scaffoldStrands :=
  claim_C3_delete_removes_nonretained sampleStructure "delete,retain 5"
    (StapleCall.removeStaples [sampleStaple5]) (by decide) (by rfl)

/-- C4: For every `staples_arg` whose first comma-separated token is
`maximal_set`, a successful `perform_staple_operations` run dispatches
`generate_maximal_staple_set` (and never `remove_staples`) with the
retain set obtained from `get_staples_by_color` over the parsed retain
colors. -/
theorem claim_C4_maximal_set_dispatch (s : DnaStructure) (arg : String)
    (call : StapleCall)
    (hop : (pySplitFirst ',' arg).headD "" = "maximal_set")
    (hok : perform_staple_operations s arg = Except.ok call) :
    ∃ colors,
      call = StapleCall.generateMaximalStapleSet
        (s.get_staples_by_color colors) ∧
      ((pySplitFirst ',' arg).length = 2 →
        parseRetainColors ((pySplitFirst ',' arg).getD 1 "") =
          Except.ok colors) ∧
      ∀ r, call ≠ StapleCall.removeStaples r := by
  simp only [perform_staple_operations] at hok
  split at hok
  case isTrue hl =>
    split at hok
    case h_1 colors hp =>
      rw [hop, stapleDispatch_maximal] at hok
      refine ⟨colors, (Except.ok.inj hok).symm, fun _ => hp, ?_⟩
      intro r hr
      rw [hr] at hok
      exact absurd (Except.ok.inj hok) (by simp)
    case h_2 e hp =>
      exact absurd hok (by simp)
  case isFalse hl =>
    rw [hop, stapleDispatch_maximal] at hok
    refine ⟨[], ?_, fun h => absurd h hl, ?_⟩
    · rw [get_staples_by_color_nil]
      exact (Except.ok.inj hok).symm
    · intro r hr
      rw [hr] at hok
      exact absurd (Except.ok.inj hok) (by simp)

theorem claim_C4_witness :
    ∃ colors,
      StapleCall.generateMaximalStapleSet [sampleStaple7] =
        StapleCall.generateMaximalStapleSet
          (sampleStructure.get_staples_by_color colors) ∧
      ((pySplitFirst ',' "maximal_set,retain 7").length = 2 →
        parseRetainColors
            ((pySplitFirst ',' "maximal_set,retain 7").getD 1 "") =
          Except.ok colors) ∧
      ∀ r,
        StapleCall.generateMaximalStapleSet [sampleStaple7] ≠
          StapleCall.removeStaples r :=
  claim_C4_maximal_set_dispatch sampleStructure "maximal_set,retain 7"
    (StapleCall.generateMaximalStapleSet [sampleStaple7]) (by decide)
    (by rfl)

/-- C7: For the `staples_arg` `"delete"` (no comma-separated retain
clause), `perform_staple_operations` dispatches `remove_staples` with
an empty retain set, after which the model has no staple strands while
the scaffold strands are unchanged. -/
theorem claim_C7_plain_delete_removes_all (s : DnaStructure) :
    perform_staple_operations s "delete" =
      Except.ok (StapleCall.removeStaples []) ∧
    (s.remove_staples []).stapleStrands = [] ∧
    (s.remove_staples []).scaffoldStrands = s.scaffoldStrands := by
  refine ⟨rfl, ?_, remove_staples_scaffoldStrands s []⟩
  rw [remove_staples_stapleStrands]
  simp

/-- C8: For every `staples_arg` containing a comma where the first
`\W`-token of the part after the comma is not `retain`, the local
`retain_colors` is never assigned and `perform_staple_operations`
raises an unhandled `NameError` at the `get_staples_by_color` line. -/
theorem claim_C8_missing_retain_nameError (s : DnaStructure) (arg : String)
    (h1 : (pySplitFirst ',' arg).length = 2)
    (h2 : (pySplitNonWord ((pySplitFirst ',' arg).getD 1 "")).headD "" ≠
      "retain") :
    perform_staple_operations s arg = Except.error PyError.nameError := by
  simp only [perform_staple_operations, if_pos h1, parseRetainColors,
    if_neg h2]

theorem claim_C8_witness :
    perform_staple_operations sampleStructure "delete,keep 5" =
      Except.error PyError.nameError :=
  claim_C8_missing_retain_nameError sampleStructure "delete,keep 5"
    (by decide) (by decide)

/-- C10: For every `staples_arg` whose first comma-separated token is
neither `delete` nor `maximal_set`, `perform_staple_operations`
dispatches no staple mutation: either it returns with no operation
performed, or it raises an exception while parsing the retain clause —
in neither case is `remove_staples` or `generate_maximal_staple_set`
invoked. -/
theorem claim_C10_unknown_operation_noop (s : DnaStructure) (arg : String)
    (h1 : (pySplitFirst ',' arg).headD "" ≠ "delete")
    (h2 : (pySplitFirst ',' arg).headD "" ≠ "maximal_set") :
    perform_staple_operations s arg = Except.ok StapleCall.noOp ∨
      ∃ e, perform_staple_operations s arg = Except.error e := by
  simp only [perform_staple_operations]
  split
  case isTrue hl =>
    cases hp : parseRetainColors ((pySplitFirst ',' arg).getD 1 "") with
    | ok colors =>
      left
      simp only [stapleDispatch, if_neg h1, if_neg h2]
    | error e =>
      right
      exact ⟨e, rfl⟩
  case isFalse hl =>
    left
    simp only [stapleDispatch, if_neg h1, if_neg h2]

theorem claim_C10_witness :
    perform_staple_operations sampleStructure "frobnicate,retain 5" =
      Except.ok StapleCall.noOp ∨
    ∃ e,
      perform_staple_operations sampleStructure "frobnicate,retain 5" =
        Except.error e :=
  claim_C10_unknown_operation_noop sampleStructure "frobnicate,retain 5"
    (by decide) (by decide)

/-!
## Lemmas and claims about `read_cadnano_file`
-/

/-- Every event of a `read_cadnano_file` trace is one of the six calls
the method can make, with the arguments the source passes. -/
theorem read_trace_events (c : Converter) (lib : List (String × List Char))
    (design : CadnanoDesign)
    (impl : DnaStructure → Bool → CsvTable → DnaStructure) (csv : CsvTable)
    (seqf seqn : String) (e : CadnanoEvent)
    (he : e ∈ (c.read_cadnano_file lib design impl csv seqf seqn).1) :
    e = CadnanoEvent.readJson ∨ e = CadnanoEvent.createStructure c.modify ∨
      e = CadnanoEvent.readCsv seqf ∨ e = CadnanoEvent.setSequence false ∨
      e = CadnanoEvent.logErrorUnknownName seqn ∨
      e = CadnanoEvent.setSequenceFromName false seqn := by
  simp only [Converter.read_cadnano_file] at he
  by_cases hf : seqf = "" <;>
    by_cases hc : (splitext seqf).2 = ".csv" <;>
    by_cases hn : seqn = "" <;>
    by_cases hu : (lib.lookup seqn).isNone = true <;>
    simp [hf, hc, hn, hu] at he <;>
    tauto

/-- C1: For every model and every sequence name absent from the
library of named reference sequences, the assignment-by-name operation
invoked by `read_cadnano_file` fails with `UnknownSequenceName`: the
method's result is that error, and `set_sequence_from_name` performs no
assignment on any structure, leaving the model in its pre-call state. -/
theorem claim_C1_unknown_name_fails (c : Converter)
    (lib : List (String × List Char)) (design : CadnanoDesign)
    (impl : DnaStructure → Bool → CsvTable → DnaStructure) (csv : CsvTable)
    (seqf seq_name : String) (h1 : seq_name ≠ "")
    (h2 : lib.lookup seq_name = none) :
    (c.read_cadnano_file lib design impl csv seqf seq_name).2 =
      Except.error SeqError.unknownSequenceName ∧
    ∀ st m, set_sequence_from_name lib st m seq_name =
      Except.error SeqError.unknownSequenceName := by
  constructor
  · simp [Converter.read_cadnano_file, h1, set_sequence_from_name, h2]
  · intro st m
    simp [set_sequence_from_name, h2]

theorem claim_C1_witness :
    ((Converter.initDefault.read_cadnano_file [] ⟨[]⟩ (fun s _ _ => s) []
        "" "M13mp18").2 =
      Except.error SeqError.unknownSequenceName) ∧
    ∀ st m, set_sequence_from_name [] st m "M13mp18" =
      Except.error SeqError.unknownSequenceName :=
  claim_C1_unknown_name_fails Converter.initDefault [] ⟨[]⟩
    (fun s _ _ => s) [] "" "M13mp18" (by decide) rfl

/-- The concrete run refuting C2: a converter built with `modify=True`
reading a design and assigning the known sequence name. -/
def c2Lib : List (String × List Char) :=
  [("M13mp18", ['A', 'C', 'G', 'T'])]

def c2Run : List CadnanoEvent × Except SeqError DnaStructure :=
  (Converter.init true).read_cadnano_file c2Lib ⟨[]⟩ (fun s _ _ => s) []
    "" "M13mp18"

/-- C2 counterexample: With `modify=True` at build time, the
structure is built in modified mode but the sequence assignment is
invoked with `modified_structure=False`, never `True`: the mode passed
to assignment does not equal the build-time mode. -/
theorem claim_C2_counterexample :
    CadnanoEvent.createStructure true ∈ c2Run.1 ∧
    CadnanoEvent.setSequenceFromName false "M13mp18" ∈ c2Run.1 ∧
    CadnanoEvent.setSequenceFromName true "M13mp18" ∉ c2Run.1 := by
  decide

/-- C2 amended: `read_cadnano_file` always passes
`on_modified_strands = false` to sequence assignment, on both the
CSV-table path and the named-sequence path, regardless of the `modify`
mode used at build time; `create_structure` is called with the
converter's `modify`.  The passed mode therefore equals the build-time
mode exactly when `modify` is false. -/
theorem claim_C2_amended_always_false (c : Converter)
    (lib : List (String × List Char)) (design : CadnanoDesign)
    (impl : DnaStructure → Bool → CsvTable → DnaStructure) (csv : CsvTable)
    (seqf seqn n : String) :
    CadnanoEvent.setSequenceFromName true n ∉
      (c.read_cadnano_file lib design impl csv seqf seqn).1 ∧
    CadnanoEvent.setSequence true ∉
      (c.read_cadnano_file lib design impl csv seqf seqn).1 ∧
    CadnanoEvent.createStructure c.modify ∈
      (c.read_cadnano_file lib design impl csv seqf seqn).1 := by
  refine ⟨?_, ?_, ?_⟩
  · intro h
    rcases read_trace_events c lib design impl csv seqf seqn _ h with
      h' | h' | h' | h' | h' | h' <;> simp at h'
  · intro h
    rcases read_trace_events c lib design impl csv seqf seqn _ h with
      h' | h' | h' | h' | h' | h' <;> simp at h'
  · exact List.mem_cons_of_mem _ (List.mem_cons_self _ _)

/-- C5: In `read_cadnano_file` the structure is fully built before
any sequence-assignment call runs: every assignment event in the trace
is strictly preceded by the `create_structure` call. -/
theorem claim_C5_build_before_assignment (c : Converter)
    (lib : List (String × List Char)) (design : CadnanoDesign)
    (impl : DnaStructure → Bool → CsvTable → DnaStructure) (csv : CsvTable)
    (seqf seqn : String) (k : Nat) (e : CadnanoEvent)
    (hk : (c.read_cadnano_file lib design impl csv seqf seqn).1.get? k =
      some e)
    (he : e.isAssignment = true) :
    ∃ j, j < k ∧
      (c.read_cadnano_file lib design impl csv seqf seqn).1.get? j =
        some (CadnanoEvent.createStructure c.modify) := by
  match k with
  | 0 =>
    rw [show (c.read_cadnano_file lib design impl csv seqf seqn).1.get? 0 =
      some CadnanoEvent.readJson from rfl] at hk
    cases Option.some.inj hk
    simp [CadnanoEvent.isAssignment] at he
  | 1 =>
    rw [show (c.read_cadnano_file lib design impl csv seqf seqn).1.get? 1 =
      some (CadnanoEvent.createStructure c.modify) from rfl] at hk
    cases Option.some.inj hk
    simp [CadnanoEvent.isAssignment] at he
  | (k' + 2) =>
    exact ⟨1, by omega, rfl⟩

theorem claim_C5_witness :
    ∃ j, j < 2 ∧
      (Converter.initDefault.read_cadnano_file c2Lib ⟨[]⟩ (fun s _ _ => s)
        [] "" "M13mp18").1.get? j =
      some (CadnanoEvent.createStructure Converter.initDefault.modify) :=
  claim_C5_build_before_assignment Converter.initDefault c2Lib ⟨[]⟩
    (fun s _ _ => s) [] "" "M13mp18" 2
    (CadnanoEvent.setSequenceFromName false "M13mp18") (by decide)
    (by decide)

/-- C6: A converter constructed without specifying `modify` uses
`modify=false`; `read_cadnano_file` then calls `create_structure` in
the simplified mode, in which a deleted slot is still skipped and an
inserted slot contributes exactly one base, independent of its
insertion count. -/
theorem claim_C6_default_simplified_mode :
    Converter.initDefault.modify = false ∧
    (∀ (lib : List (String × List Char)) (design : CadnanoDesign)
      (impl : DnaStructure → Bool → CsvTable → DnaStructure)
      (csv : CsvTable) (seqf seqn : String),
      CadnanoEvent.createStructure false ∈
        (Converter.initDefault.read_cadnano_file lib design impl csv seqf
          seqn).1) ∧
    (∀ sl : BaseSlot, slotBaseCount false sl =
      if sl.deleted then 0 else 1) := by
  refine ⟨rfl, ?_, ?_⟩
  · intro lib design impl csv seqf seqn
    exact List.mem_cons_of_mem _ (List.mem_cons_self _ _)
  · intro sl
    cases hd : sl.deleted <;> simp [slotBaseCount, hd]

/-- C9: A non-empty `seq_file_name` whose extension is not `.csv` is
silently ignored by `read_cadnano_file`: no CSV is read, no
table-assignment call is made, no error is raised, and (with no
sequence name requested) the structure is exactly the one
`create_structure` built. -/
theorem claim_C9_non_csv_ignored (c : Converter)
    (lib : List (String × List Char)) (design : CadnanoDesign)
    (impl : DnaStructure → Bool → CsvTable → DnaStructure) (csv : CsvTable)
    (seqf : String) (h1 : seqf ≠ "") (h2 : (splitext seqf).2 ≠ ".csv") :
    c.read_cadnano_file lib design impl csv seqf "" =
      ([CadnanoEvent.readJson, CadnanoEvent.createStructure c.modify],
       Except.ok (create_structure design c.modify)) := by
  simp [Converter.read_cadnano_file, h1, h2]

theorem claim_C9_witness :
    Converter.initDefault.read_cadnano_file [] ⟨[]⟩ (fun s _ _ => s) []
        "sequences.txt" "" =
      ([CadnanoEvent.readJson, CadnanoEvent.createStructure false],
       Except.ok (create_structure ⟨[]⟩ false)) :=
  claim_C9_non_csv_ignored Converter.initDefault [] ⟨[]⟩ (fun s _ _ => s)
    [] "sequences.txt" (by decide) (by decide)

end Nanodesign
